import Mathlib

/-!
Shallow embedding of the PM2.5 dashboard frontend
(file frontend/static/js/chat.js of the repository).

Numeric readings are modelled as exact rationals; JSON fields that may be
missing, null or falsy are modelled with Option or with the empty string
(JS string truthiness: only the empty string is falsy among strings).
Browser collaborators (Date parsing and locale formatting, the Chart.js
rendering library, the DOM) are modelled by explicit state passed through
the functions: the DOM nodes the script writes become fields of a
Snapshot record, chat messages become a list, and chart instances become
an explicit slot state recording which instances are live.
-/

namespace PM25

/-- Result of one fetch: failure covers a transport error, a thrown
JSON-parse error and a non-ok HTTP status (all leave the snapshot
untouched in the source); ok carries the parsed payload. -/
inductive FetchResult (α : Type) : Type
  | failure : FetchResult α
  | ok (data : α) : FetchResult α
deriving DecidableEq

/-- Models Number.prototype.toFixed(1): the numeric value rounded to one
decimal digit, rendered with exactly one digit after the point.  The
source applies it only for display; no claim depends on its rounding
direction at a tie. -/
def toFixed1 (q : ℚ) : String :=
  let n : ℤ := round (q * 10)
  let sign := if n < 0 then "-" else ""
  let a := n.natAbs
  sign ++ toString (a / 10) ++ "." ++ toString (a % 10)

/-- The triple of strings produced by the classifier branch taken in
updateHealthStatus: the status label, the color class and the advisory. -/
structure HealthStatus where
  status : String
  colorClass : String
  advice : String
deriving DecidableEq

/-- Translation of updateHealthStatus (chat.js lines 139-169), restricted
to the pure classification (the three DOM writes at the end copy these
strings into the snapshot; see loadCurrentAndStatus below). -/
def updateHealthStatus (pm25 : ℚ) : HealthStatus :=
  if pm25 ≤ 15.4 then
    ⟨"Good", "good",
      "Air quality is great! Perfect for outdoor activities and exercise."⟩
  else if pm25 ≤ 35.4 then
    ⟨"Moderate", "moderate",
      "Air quality is acceptable. Extremely sensitive individuals should consider limiting prolonged outdoor exertion."⟩
  else if pm25 ≤ 54.4 then
    ⟨"Unhealthy for Sensitive", "unhealthy-sensitive",
      "Members of sensitive groups (children, elderly, asthmatics) should limit outdoor activities."⟩
  else
    ⟨"Unhealthy", "unhealthy",
      "Everyone may begin to experience health effects. Please wear a mask and avoid outdoor activities."⟩

def goodStatus : HealthStatus :=
  ⟨"Good", "good",
    "Air quality is great! Perfect for outdoor activities and exercise."⟩

def moderateStatus : HealthStatus :=
  ⟨"Moderate", "moderate",
    "Air quality is acceptable. Extremely sensitive individuals should consider limiting prolonged outdoor exertion."⟩

def sensitiveStatus : HealthStatus :=
  ⟨"Unhealthy for Sensitive", "unhealthy-sensitive",
    "Members of sensitive groups (children, elderly, asthmatics) should limit outdoor activities."⟩

def unhealthyStatus : HealthStatus :=
  ⟨"Unhealthy", "unhealthy",
    "Everyone may begin to experience health effects. Please wear a mask and avoid outdoor activities."⟩

/-! ## Chat session (sendMessage / addMessage / removeMessage, chat.js lines 3-70) -/

/-- Models String.prototype.trim: strip leading and trailing whitespace. -/
def jsTrim (s : String) : String :=
  ⟨((s.data.dropWhile Char.isWhitespace).reverse.dropWhile Char.isWhitespace).reverse⟩

inductive Sender : Type
  | user : Sender
  | bot : Sender
deriving DecidableEq

/-- One div in the chatMessages container.  The id field holds the
Date.now() value used to build the DOM id (the source string is
msg-<now>; the constant prefix is dropped, which preserves equality and
distinctness of ids).  isLoading records the third argument of
addMessage: true marks the pending Thinking... placeholder. -/
structure ChatMessage where
  id : Nat
  text : String
  sender : Sender
  isLoading : Bool
deriving DecidableEq

/-- addMessage (chat.js lines 44-63): appends a new message div to the
container and returns its id.  The clock reading Date.now() is passed in
as now, since the embedding has no ambient clock. -/
def addMessage (container : List ChatMessage) (now : Nat) (text : String)
    (sender : Sender) (isLoading : Bool) : List ChatMessage × Nat :=
  (container ++ [⟨now, text, sender, isLoading⟩], now)

/-- removeMessage (chat.js lines 65-70): document.getElementById returns
the FIRST element in document order carrying the id, and remove detaches
it; when no element has the id, nothing happens. -/
def removeMessage : List ChatMessage → Nat → List ChatMessage
  | [], _ => []
  | m :: ms, i => if m.id = i then ms else m :: removeMessage ms i

/-- Parsed body of the chat endpoint response.  JS tests the fields for
truthiness; among strings only the empty string is falsy, so a missing
or empty field is modelled as the empty string. -/
structure ChatPayload where
  response : String
  error : String
deriving DecidableEq

/-- Outcome of the awaited fetch + response.json() in sendMessage: either
the parsed payload, or a thrown transport or parse error, which lands in
the catch block. -/
inductive ChatResult : Type
  | ok (data : ChatPayload) : ChatResult
  | transportFailure : ChatResult
deriving DecidableEq

def thinkingText : String := "Thinking..."

def appErrorText : String := "Sorry, I encountered an error. Please try again."

def transportErrorText : String :=
  "Sorry, I couldn\x27t connect to the server. Please try again later."

/-- State of the chat UI after the synchronous prefix of sendMessage
(everything before the first await): the container, the input box value,
the loading message id and whether a network request was issued. -/
structure SendStart where
  container : List ChatMessage
  input : String
  loadingId : Nat
  requestIssued : Bool
deriving DecidableEq

/-- Synchronous prefix of sendMessage (chat.js lines 3-14): read and trim
the input; on empty text return at once; otherwise append the user
message (clock reading t1), clear the input, append the Thinking...
placeholder (clock reading t2) and issue the request. -/
def sendMessageStart (container : List ChatMessage) (input : String)
    (t1 t2 : Nat) : SendStart :=
  let message := jsTrim input
  if message = "" then ⟨container, input, 0, false⟩
  else
    let c1 := (addMessage container t1 message .user false).1
    let step2 := addMessage c1 t2 thinkingText .bot true
    ⟨step2.1, "", step2.2, true⟩

/-- Continuation of sendMessage after the awaited fetch resolves
(chat.js lines 25-41): on a parsed payload, remove the loading message,
then append the response text when present, else the apology when an
error field is present, else nothing; on a thrown error, the catch block
removes the loading message and appends the connection failure text.
t3 is the clock reading of the final addMessage. -/
def sendMessageResolve (container : List ChatMessage) (loadingId t3 : Nat)
    (res : ChatResult) : List ChatMessage :=
  match res with
  | .ok data =>
    let c1 := removeMessage container loadingId
    if data.response ≠ "" then (addMessage c1 t3 data.response .bot false).1
    else if data.error ≠ "" then (addMessage c1 t3 appErrorText .bot false).1
    else c1
  | .transportFailure =>
    let c1 := removeMessage container loadingId
    (addMessage c1 t3 transportErrorText .bot false).1

/-- A whole sendMessage exchange: the synchronous prefix followed, when a
request was issued, by the resolution of its fetch.  Returns the final
container and the final input box value. -/
def sendMessage (container : List ChatMessage) (input : String)
    (t1 t2 t3 : Nat) (res : ChatResult) : List ChatMessage × String :=
  let s := sendMessageStart container input t1 t2
  if s.requestIssued then (sendMessageResolve s.container s.loadingId t3 res, s.input)
  else (s.container, s.input)

/-! ## Chart lifecycle (renderForecastChart / renderHistoryChart,
chat.js lines 196-317)

A Chart.js instance only stops consuming its canvas when destroy is
called on it, so the slot state tracks every instance created and not
yet destroyed (liveIds), besides the module-level variable holding the
current handle (forecastChart / historyChart in the source). -/

/-- One created Chart.js instance: its identity and the data it was
created with. -/
structure ChartInst where
  id : Nat
  labels : List String
  values : List ℚ
deriving DecidableEq

/-- State of one chart slot: the module-level handle variable, the ids of
all instances created and not yet destroyed, and a fresh-id counter. -/
structure ChartSlot where
  handle : Option ChartInst
  liveIds : List Nat
  nextId : Nat
deriving DecidableEq

/-- Initial slot state: let forecastChart = null (chat.js line 71). -/
def initialSlot : ChartSlot := ⟨none, [], 0⟩

/-- chart.destroy(): the instance stops being live. -/
def destroyChart (s : ChartSlot) (inst : ChartInst) : ChartSlot :=
  { s with liveIds := s.liveIds.erase inst.id }

/-- new Chart(ctx, config) followed by assignment to the module-level
handle variable. -/
def newChart (s : ChartSlot) (labels : List String) (values : List ℚ) : ChartSlot :=
  { handle := some ⟨s.nextId, labels, values⟩,
    liveIds := s.liveIds ++ [s.nextId],
    nextId := s.nextId + 1 }

/-- The guard pattern of both renders: if the handle variable is set,
destroy that instance first (if (forecastChart) forecastChart.destroy()). -/
def destroyIfLive (s : ChartSlot) : ChartSlot :=
  match s.handle with
  | some inst => destroyChart s inst
  | none => s

/-- JS Array.prototype.filter with the element index: keeps the elements
whose index satisfies p, in order. -/
def filterIdx {α : Type} (p : Nat → Bool) (l : List α) : List α :=
  (l.enum.filter (fun x => p x.1)).map (fun x => x.2)

/-- Models the browser Date collaborator used for forecast axis labels
(new Date(s).getHours() + ":00").  The spec leaves locale and calendar
outside the core, so the embedding tags the raw timestamp string; no
claim depends on the rendered label text. -/
def formatForecastLabel (target_datetime : String) : String :=
  target_datetime ++ ":00"

/-- Models the browser Date collaborator used for history axis labels
(month/day hour:00); same remark as formatForecastLabel. -/
def formatHistoryLabel (datetime : String) : String := datetime

/-- One element of the predictions array of the predictions endpoint. -/
structure Prediction where
  target_datetime : String
  predicted_pm25 : ℚ
deriving DecidableEq

/-- One element of the history array of the history endpoint. -/
structure HistoryPoint where
  datetime : String
  pm25 : ℚ
deriving DecidableEq

/-- renderForecastChart (chat.js lines 196-235): bail out when the canvas
is missing; otherwise build labels and values, destroy the previous
instance when the handle is set, and create the new chart. -/
def renderForecastChart (slot : ChartSlot) (ctxPresent : Bool)
    (predictions : List Prediction) : ChartSlot :=
  if ctxPresent = false then slot
  else
    let labels := predictions.map (fun p => formatForecastLabel p.target_datetime)
    let values := predictions.map (fun p => p.predicted_pm25)
    newChart (destroyIfLive slot) labels values

/-- renderHistoryChart (chat.js lines 237-317): bail out when the canvas
is missing; otherwise decimate the data keeping every second point
(history.filter of index mod 2 equal 0), build labels and values,
destroy the previous instance when the handle is set, and create the new
chart.  There is no emptiness guard: an empty history array flows
through to newChart. -/
def renderHistoryChart (slot : ChartSlot) (ctxPresent : Bool)
    (history : List HistoryPoint) : ChartSlot :=
  if ctxPresent = false then slot
  else
    let sampled := filterIdx (fun i => i % 2 == 0) history
    let labels := sampled.map (fun h => formatHistoryLabel h.datetime)
    let values := sampled.map (fun h => h.pm25)
    newChart (destroyIfLive slot) labels values

/-! ## Dashboard sync (loadDashboardData and the three loaders,
chat.js lines 81-193)

The DOM nodes the loaders write become the fields of Snapshot; each
loader reads and writes a set of fields disjoint from the other two, so
the single-threaded interleaving of the three concurrent loaders is
modelled as their sequential composition. -/

/-- Structured form of the innerHTML written to the trendIndicator node
(chat.js line 131): the arrow icon, its color and the formatted absolute
delta. -/
structure TrendDisplay where
  icon : String
  color : String
  magnitude : String
deriving DecidableEq

/-- The DOM state the dashboard loaders write. -/
structure Snapshot where
  currentPM25 : String
  currentStatusText : String
  currentStatusClass : String
  healthAdvice : String
  lastUpdate : String
  dotColor : String
  nextHourPM25 : String
  trendIndicator : Option TrendDisplay
  avgPM25 : String
  forecastSlot : ChartSlot
  historySlot : ChartSlot
deriving DecidableEq

/-- A concrete page state before any loader has written anything. -/
def emptySnapshot : Snapshot :=
  ⟨"", "", "", "", "", "", "", none, "", initialSlot, initialSlot⟩

/-- Models the browser toLocaleTimeString collaborator applied to
new Date(datetime) (chat.js line 114); locale rendering is outside the
core, so the raw server timestamp string stands for its rendering. -/
def toLocaleTime (datetime : String) : String := datetime

/-- Parsed body of the current-reading endpoint: an error field (empty
string when absent), the reading (none when the field is undefined), the
server timestamp, and the next-hour prediction (none when null). -/
structure CurrentPayload where
  error : String
  current_pm25 : Option ℚ
  datetime : String
  next_hour_prediction : Option ℚ
deriving DecidableEq

/-- The system-startup branch of loadCurrentAndStatus (chat.js lines
99-107): placeholder reading, System Starting status with the loading
pill class, waiting advice, Initializing timestamp and the yellow
waiting dot. -/
def systemStartupState (snap : Snapshot) : Snapshot :=
  { snap with
    currentPM25 := "--",
    currentStatusText := "System Starting...",
    currentStatusClass := "status-pill loading",
    healthAdvice := "The system is gathering initial data. Please wait...",
    lastUpdate := "Initializing...",
    dotColor := "#fbbf24" }

/-- The local const trend = nextVal - pm25 of chat.js line 126. -/
def trendDelta (pm25 nextVal : ℚ) : ℚ := nextVal - pm25

/-- loadCurrentAndStatus (chat.js lines 89-137): a non-ok response or a
thrown error leaves everything untouched; an ok payload carrying an
error field or missing current_pm25 switches the snapshot to the
system-startup state; otherwise the reading, timestamp and dot are
written, updateHealthStatus fills the status strings, and when the
next-hour prediction is non-null the next-hour value and the trend
indicator are written as well. -/
def loadCurrentAndStatus (snap : Snapshot) (res : FetchResult CurrentPayload) :
    Snapshot :=
  match res with
  | .failure => snap
  | .ok data =>
    if data.error ≠ "" then systemStartupState snap
    else
      match data.current_pm25 with
      | none => systemStartupState snap
      | some pm25 =>
        let hs := updateHealthStatus pm25
        let base := { snap with
          currentPM25 := toFixed1 pm25,
          lastUpdate := "Updated " ++ toLocaleTime data.datetime,
          dotColor := "#10b981",
          currentStatusText := hs.status,
          currentStatusClass := "status-pill " ++ hs.colorClass,
          healthAdvice := hs.advice }
        match data.next_hour_prediction with
        | none => base
        | some nextVal =>
          let trend := trendDelta pm25 nextVal
          { base with
            nextHourPM25 := toFixed1 nextVal,
            trendIndicator := some
              ⟨if 0 < trend then "↗" else "↘",
               if 0 < trend then "#ef4444" else "#10b981",
               toFixed1 |trend|⟩ }

/-- Parsed body of the predictions endpoint; none models a missing or
null predictions field (falsy in JS; an array, even empty, is truthy). -/
structure PredictionsPayload where
  predictions : Option (List Prediction)
deriving DecidableEq

/-- loadPredictions (chat.js lines 171-184): a thrown error leaves
everything untouched; a missing predictions field or an empty array
returns early; otherwise the mean of predicted_pm25 (reduce of the sums
divided by the length) is written and the forecast chart rendered. -/
def loadPredictions (snap : Snapshot) (ctxPresent : Bool)
    (res : FetchResult PredictionsPayload) : Snapshot :=
  match res with
  | .failure => snap
  | .ok data =>
    match data.predictions with
    | none => snap
    | some preds =>
      if preds.length = 0 then snap
      else
        let avg := (preds.foldl (fun sum p => sum + p.predicted_pm25) (0 : ℚ)) / (preds.length : ℚ)
        { snap with
          avgPM25 := toFixed1 avg,
          forecastSlot := renderForecastChart snap.forecastSlot ctxPresent preds }

/-- Parsed body of the history endpoint; none models a missing or null
history field.  An empty array is truthy, so it passes the guard. -/
structure HistoryPayload where
  history : Option (List HistoryPoint)
deriving DecidableEq

/-- loadHistory (chat.js lines 186-193): a thrown error leaves everything
untouched; when the history field is truthy (any array, even empty) the
history chart is rendered. -/
def loadHistory (snap : Snapshot) (ctxPresent : Bool)
    (res : FetchResult HistoryPayload) : Snapshot :=
  match res with
  | .failure => snap
  | .ok data =>
    match data.history with
    | none => snap
    | some hist =>
      { snap with historySlot := renderHistoryChart snap.historySlot ctxPresent hist }

/-- loadDashboardData (chat.js lines 81-87): Promise.all of the three
loaders.  Each loader reads and writes only its own snapshot fields, so
the single-threaded interleaving of their completions is modelled by
sequential composition; any completion order yields the same snapshot. -/
def loadDashboardData (snap : Snapshot) (forecastCtx historyCtx : Bool)
    (resCur : FetchResult CurrentPayload)
    (resPred : FetchResult PredictionsPayload)
    (resHist : FetchResult HistoryPayload) : Snapshot :=
  loadHistory
    (loadPredictions (loadCurrentAndStatus snap resCur) forecastCtx resPred)
    historyCtx resHist

/-! ## Classifier lemmas -/

lemma updateHealthStatus_good {pm25 : ℚ} (h : pm25 ≤ 15.4) :
    updateHealthStatus pm25 = goodStatus := by
  unfold updateHealthStatus goodStatus
  rw [if_pos h]

lemma updateHealthStatus_moderate {pm25 : ℚ} (h1 : 15.4 < pm25) (h2 : pm25 ≤ 35.4) :
    updateHealthStatus pm25 = moderateStatus := by
  unfold updateHealthStatus moderateStatus
  split_ifs <;> first | rfl | linarith

lemma updateHealthStatus_sensitive {pm25 : ℚ} (h1 : 35.4 < pm25) (h2 : pm25 ≤ 54.4) :
    updateHealthStatus pm25 = sensitiveStatus := by
  unfold updateHealthStatus sensitiveStatus
  split_ifs <;> first | rfl | linarith

lemma updateHealthStatus_unhealthy {pm25 : ℚ} (h : 54.4 < pm25) :
    updateHealthStatus pm25 = unhealthyStatus := by
  unfold updateHealthStatus unhealthyStatus
  split_ifs <;> first | rfl | linarith

lemma updateHealthStatus_cases (pm25 : ℚ) :
    updateHealthStatus pm25 = goodStatus ∨ updateHealthStatus pm25 = moderateStatus ∨
    updateHealthStatus pm25 = sensitiveStatus ∨ updateHealthStatus pm25 = unhealthyStatus := by
  rcases le_or_lt pm25 15.4 with h | h1
  · exact Or.inl (updateHealthStatus_good h)
  rcases le_or_lt pm25 35.4 with h2 | h2
  · exact Or.inr (Or.inl (updateHealthStatus_moderate h1 h2))
  rcases le_or_lt pm25 54.4 with h3 | h3
  · exact Or.inr (Or.inr (Or.inl (updateHealthStatus_sensitive h2 h3)))
  · exact Or.inr (Or.inr (Or.inr (updateHealthStatus_unhealthy h3)))

/-- C1: the status classifier maps every reading to exactly one category
with inclusive upper bounds: pm25 at most 15.4 is Good, above 15.4 up to
35.4 is Moderate, above 35.4 up to 54.4 is Unhealthy for Sensitive, and
above 54.4 is Unhealthy, each carrying its fixed advisory string (the
category record bundles the advisory, so the equations pin both). -/
theorem C1_classifier_thresholds (pm25 : ℚ) :
    (pm25 ≤ 15.4 → updateHealthStatus pm25 = goodStatus) ∧
    (15.4 < pm25 → pm25 ≤ 35.4 → updateHealthStatus pm25 = moderateStatus) ∧
    (35.4 < pm25 → pm25 ≤ 54.4 → updateHealthStatus pm25 = sensitiveStatus) ∧
    (54.4 < pm25 → updateHealthStatus pm25 = unhealthyStatus) :=
  ⟨fun h => updateHealthStatus_good h,
   fun h1 h2 => updateHealthStatus_moderate h1 h2,
   fun h1 h2 => updateHealthStatus_sensitive h1 h2,
   fun h => updateHealthStatus_unhealthy h⟩

/-- Witness for C1 at the boundary readings named by the claim: exactly
15.4 is Good, 15.40001 is Moderate, 54.4 is Unhealthy for Sensitive and
54.5 is Unhealthy. -/
theorem C1_classifier_thresholds_witness :
    updateHealthStatus 15.4 = goodStatus ∧
    updateHealthStatus 15.40001 = moderateStatus ∧
    updateHealthStatus 54.4 = sensitiveStatus ∧
    updateHealthStatus 54.5 = unhealthyStatus :=
  ⟨(C1_classifier_thresholds 15.4).1 (by norm_num),
   (C1_classifier_thresholds 15.40001).2.1 (by norm_num) (by norm_num),
   (C1_classifier_thresholds 54.4).2.2.1 (by norm_num) (by norm_num),
   (C1_classifier_thresholds 54.5).2.2.2 (by norm_num)⟩

/-- C10: the classifier is a total function (it always returns one of the
four categories, never throwing), and every negative reading is handled
by the first branch, so its category and advisory coincide with those of
a zero reading, namely Good. -/
theorem C10_classifier_total_negative (pm25 : ℚ) (h : pm25 < 0) :
    updateHealthStatus pm25 = updateHealthStatus 0 ∧
    (updateHealthStatus pm25).status = "Good" ∧
    (∀ q : ℚ, updateHealthStatus q = goodStatus ∨
      updateHealthStatus q = moderateStatus ∨
      updateHealthStatus q = sensitiveStatus ∨
      updateHealthStatus q = unhealthyStatus) := by
  have hneg : updateHealthStatus pm25 = goodStatus :=
    updateHealthStatus_good (by linarith)
  have hzero : updateHealthStatus 0 = goodStatus :=
    updateHealthStatus_good (by norm_num)
  exact ⟨hneg.trans hzero.symm, by rw [hneg]; rfl, updateHealthStatus_cases⟩

/-- Witness for C10 at the reading -5. -/
theorem C10_classifier_total_negative_witness :
    updateHealthStatus (-5) = updateHealthStatus 0 ∧
    (updateHealthStatus (-5)).status = "Good" :=
  ⟨(C10_classifier_total_negative (-5) (by norm_num)).1,
   (C10_classifier_total_negative (-5) (by norm_num)).2.1⟩

/-! ## Chat session theorems -/

/-- C2, evaluated at the failing input: sending "hi" from an empty log
with both Date.now() readings equal (the two addMessage calls run in the
same synchronous tick, so the user message and the Thinking...
placeholder share one id) and a successful server reply.  removeMessage
then detaches the first element carrying the shared id, which is the
user message, and the pending placeholder survives to the end of the
exchange, contradicting the claimed cleanup guarantee. -/
theorem C2_same_tick_ids_leave_pending :
    ((sendMessage [] "hi" 100 100 101 (.ok ⟨"ok", ""⟩)).1.filter
      (fun m => m.isLoading)).length = 1 ∧
    (sendMessage [] "hi" 100 100 101 (.ok ⟨"ok", ""⟩)).1.map
      (fun m => (m.text, m.sender, m.isLoading)) =
      [(thinkingText, Sender.bot, true), ("ok", Sender.bot, false)] := by
  decide

/-- C3 counterexample: there is no in-flight guard in sendMessage.  After
a first accepted send (log grown to 2), a second send with freshly typed
nonempty text issued while the first exchange is still awaiting its
response is accepted as well: it issues a second request and grows the
log to 4 entries, so two exchanges are in flight at once. -/
theorem C3_no_inflight_guard :
    (sendMessageStart [] "hello" 1 2).requestIssued = true ∧
    (sendMessageStart [] "hello" 1 2).container.length = 2 ∧
    (sendMessageStart (sendMessageStart [] "hello" 1 2).container "world" 3 4).requestIssued
      = true ∧
    (sendMessageStart (sendMessageStart [] "hello" 1 2).container "world" 3 4).container.length
      = 4 := by
  decide

/-- C3 amended: the only rejection in sendMessage is the empty-input
guard.  An accepted send clears the input box, so a rapid second send
that re-reads the cleared input is a no-op (no second request, log grown
by exactly 2 and not 4); a second send whose text is nonempty is
accepted even while the first exchange is awaiting. -/
theorem C3_second_send_rejected_only_when_input_cleared
    (container : List ChatMessage) (input : String) (t1 t2 t3 t4 : Nat)
    (h : jsTrim input ≠ "") :
    (sendMessageStart container input t1 t2).requestIssued = true ∧
    (sendMessageStart container input t1 t2).container.length = container.length + 2 ∧
    (sendMessageStart container input t1 t2).input = "" ∧
    (sendMessageStart (sendMessageStart container input t1 t2).container
        (sendMessageStart container input t1 t2).input t3 t4).requestIssued = false ∧
    (sendMessageStart (sendMessageStart container input t1 t2).container
        (sendMessageStart container input t1 t2).input t3 t4).container.length
      = container.length + 2 := by
  have h0 : jsTrim "" = "" := rfl
  refine ⟨?_, ?_, ?_, ?_, ?_⟩ <;>
    simp [sendMessageStart, h, h0, addMessage]

/-- Witness for the amended C3: a double-click double send of "hello"
from the empty log grows it by exactly 2. -/
theorem C3_second_send_rejected_only_when_input_cleared_witness :
    (sendMessageStart [] "hello" 1 2).requestIssued = true ∧
    (sendMessageStart [] "hello" 1 2).container.length
      = ([] : List ChatMessage).length + 2 ∧
    (sendMessageStart [] "hello" 1 2).input = "" ∧
    (sendMessageStart (sendMessageStart [] "hello" 1 2).container
        (sendMessageStart [] "hello" 1 2).input 3 4).requestIssued = false ∧
    (sendMessageStart (sendMessageStart [] "hello" 1 2).container
        (sendMessageStart [] "hello" 1 2).input 3 4).container.length
      = ([] : List ChatMessage).length + 2 :=
  C3_second_send_rejected_only_when_input_cleared [] "hello" 1 2 3 4 (by decide)

/-- C9: a send whose text is empty after trimming is a no-op: the guard
fires before any network request or UI mutation, so the log, the input
box and the whole exchange state are unchanged. -/
theorem C9_empty_send_noop (container : List ChatMessage) (input : String)
    (t1 t2 t3 : Nat) (res : ChatResult) (h : jsTrim input = "") :
    sendMessage container input t1 t2 t3 res = (container, input) ∧
    (sendMessageStart container input t1 t2).requestIssued = false ∧
    (sendMessageStart container input t1 t2).container = container := by
  refine ⟨?_, ?_, ?_⟩ <;> simp [sendMessage, sendMessageStart, h]

/-- Witness for C9 with a whitespace-only input. -/
theorem C9_empty_send_noop_witness :
    sendMessage [] "  " 1 2 3 ChatResult.transportFailure = ([], "  ") ∧
    (sendMessageStart [] "  " 1 2).requestIssued = false ∧
    (sendMessageStart [] "  " 1 2).container = [] :=
  C9_empty_send_noop [] "  " 1 2 3 ChatResult.transportFailure (by decide)

/-! ## Chart lifecycle theorems -/

/-- Well-formedness of a chart slot: the live instances are exactly the
one referenced by the handle variable (so no orphan instance keeps
consuming the canvas), and every live id was produced by the counter. -/
def slotWF (s : ChartSlot) : Prop :=
  s.liveIds = (s.handle.map ChartInst.id).toList ∧ ∀ i ∈ s.liveIds, i < s.nextId

lemma slotWF_initial : slotWF initialSlot := by
  constructor <;> simp [initialSlot]

/-- Shared core of both renders: destroying the handled instance before
creating the new one preserves well-formedness, leaves exactly one live
instance, and the previous handle is no longer live. -/
lemma newChart_destroyIfLive_spec (s : ChartSlot) (labels : List String)
    (values : List ℚ) (hwf : slotWF s) :
    slotWF (newChart (destroyIfLive s) labels values) ∧
    (newChart (destroyIfLive s) labels values).liveIds = [s.nextId] ∧
    ∀ h, s.handle = some h → h.id ∉ (newChart (destroyIfLive s) labels values).liveIds := by
  obtain ⟨handle, liveIds, nextId⟩ := s
  obtain ⟨hids, hlt⟩ := hwf
  cases handle with
  | none =>
    have hids' : liveIds = [] := by simpa using hids
    subst hids'
    refine ⟨⟨by simp [slotWF, newChart, destroyIfLive], ?_⟩, ?_, ?_⟩
    · intro i hi
      simp [newChart, destroyIfLive] at hi ⊢
      omega
    · simp [newChart, destroyIfLive]
    · intro h hsome
      simp at hsome
  | some inst =>
    have hlive : liveIds = [inst.id] := by simpa using hids
    subst hlive
    have hinst : inst.id < nextId := hlt inst.id (by simp)
    refine ⟨⟨?_, ?_⟩, ?_, ?_⟩
    · simp [newChart, destroyIfLive, destroyChart]
    · intro i hi
      simp [newChart, destroyIfLive, destroyChart] at hi ⊢
      omega
    · simp [newChart, destroyIfLive, destroyChart]
    · intro h hsome
      simp only [Option.some.injEq] at hsome
      subst hsome
      simp [newChart, destroyIfLive, destroyChart]
      omega

/-- C5: each chart slot holds at most one live instance: on a present
canvas, both renders destroy the handled instance before creating the
new one, so a well-formed slot stays well formed, ends with exactly one
live instance whose id is the fresh one, the previous handle is no
longer live, and a second render in succession again leaves exactly one
live instance, for the forecast slot and the history slot alike. -/
theorem C5_destroy_before_create (slot : ChartSlot) (preds : List Prediction)
    (hist : List HistoryPoint) (hwf : slotWF slot) :
    (slotWF (renderForecastChart slot true preds) ∧
     (renderForecastChart slot true preds).liveIds.length = 1 ∧
     (∀ h, slot.handle = some h →
        h.id ∉ (renderForecastChart slot true preds).liveIds) ∧
     (renderForecastChart (renderForecastChart slot true preds) true preds).liveIds.length
       = 1) ∧
    (slotWF (renderHistoryChart slot true hist) ∧
     (renderHistoryChart slot true hist).liveIds.length = 1 ∧
     (∀ h, slot.handle = some h →
        h.id ∉ (renderHistoryChart slot true hist).liveIds) ∧
     (renderHistoryChart (renderHistoryChart slot true hist) true hist).liveIds.length
       = 1) := by
  have hf := newChart_destroyIfLive_spec slot
    (preds.map (fun p => formatForecastLabel p.target_datetime))
    (preds.map (fun p => p.predicted_pm25)) hwf
  have hh := newChart_destroyIfLive_spec slot
    ((filterIdx (fun i => i % 2 == 0) hist).map (fun h => formatHistoryLabel h.datetime))
    ((filterIdx (fun i => i % 2 == 0) hist).map (fun h => h.pm25)) hwf
  have hfr : renderForecastChart slot true preds =
      newChart (destroyIfLive slot)
        (preds.map (fun p => formatForecastLabel p.target_datetime))
        (preds.map (fun p => p.predicted_pm25)) := by
    simp [renderForecastChart]
  have hhr : renderHistoryChart slot true hist =
      newChart (destroyIfLive slot)
        ((filterIdx (fun i => i % 2 == 0) hist).map (fun h => formatHistoryLabel h.datetime))
        ((filterIdx (fun i => i % 2 == 0) hist).map (fun h => h.pm25)) := by
    simp [renderHistoryChart]
  have hf2 := newChart_destroyIfLive_spec (renderForecastChart slot true preds)
    (preds.map (fun p => formatForecastLabel p.target_datetime))
    (preds.map (fun p => p.predicted_pm25)) (hfr ▸ hf.1)
  have hh2 := newChart_destroyIfLive_spec (renderHistoryChart slot true hist)
    ((filterIdx (fun i => i % 2 == 0) hist).map (fun h => formatHistoryLabel h.datetime))
    ((filterIdx (fun i => i % 2 == 0) hist).map (fun h => h.pm25)) (hhr ▸ hh.1)
  constructor
  · refine ⟨hfr ▸ hf.1, by rw [hfr, hf.2.1]; rfl, ?_, ?_⟩
    · intro h hsome
      rw [hfr]
      exact hf.2.2 h hsome
    · rw [show renderForecastChart (renderForecastChart slot true preds) true preds =
          newChart (destroyIfLive (renderForecastChart slot true preds))
            (preds.map (fun p => formatForecastLabel p.target_datetime))
            (preds.map (fun p => p.predicted_pm25)) by simp [renderForecastChart]]
      rw [hf2.2.1]; rfl
  · refine ⟨hhr ▸ hh.1, by rw [hhr, hh.2.1]; rfl, ?_, ?_⟩
    · intro h hsome
      rw [hhr]
      exact hh.2.2 h hsome
    · rw [show renderHistoryChart (renderHistoryChart slot true hist) true hist =
          newChart (destroyIfLive (renderHistoryChart slot true hist))
            ((filterIdx (fun i => i % 2 == 0) hist).map (fun h => formatHistoryLabel h.datetime))
            ((filterIdx (fun i => i % 2 == 0) hist).map (fun h => h.pm25)) by
        simp [renderHistoryChart]]
      rw [hh2.2.1]; rfl

/-- Witness for C5 on the initial slot with one-point data. -/
theorem C5_destroy_before_create_witness :
    (renderForecastChart initialSlot true [⟨"t0", 10⟩]).liveIds.length = 1 ∧
    (renderHistoryChart (renderHistoryChart initialSlot true [⟨"t0", 10⟩]) true
      [⟨"t0", 10⟩]).liveIds.length = 1 :=
  ⟨(C5_destroy_before_create initialSlot [⟨"t0", 10⟩] [⟨"t0", 10⟩] slotWF_initial).1.2.1,
   (C5_destroy_before_create initialSlot [⟨"t0", 10⟩] [⟨"t0", 10⟩] slotWF_initial).2.2.2.2⟩

/-- C6 counterexample: rendering the history chart with an empty array is
not a no-op.  Starting from a slot made live by a one-point render (the
instance with id 0), a render with the empty history array changes the
slot state: the previously live instance 0 is destroyed (no longer
live) and a fresh empty-data chart is installed, contradicting the
claimed early return that keeps the previous handle live. -/
theorem C6_empty_history_not_noop :
    (renderHistoryChart initialSlot true [⟨"t0", 10⟩]).handle
      = some ⟨0, ["t0"], [10]⟩ ∧
    renderHistoryChart (renderHistoryChart initialSlot true [⟨"t0", 10⟩]) true []
      ≠ renderHistoryChart initialSlot true [⟨"t0", 10⟩] ∧
    0 ∉ (renderHistoryChart (renderHistoryChart initialSlot true [⟨"t0", 10⟩]) true
      []).liveIds := by
  decide

/-- C6 amended: the empty and malformed payload guards live in the
loaders, not in the renders.  A missing canvas makes either render a
no-op, loadPredictions returns early on a missing or empty predictions
array, and loadHistory returns early on a missing history field, all
without throwing (the model functions are total) and without touching
chart state; but an empty history ARRAY is truthy, flows through
loadHistory, and renderHistoryChart has no emptiness guard: it destroys
the live instance (when the handle is set) and installs a fresh chart
with empty data. -/
theorem C6_empty_payload_guards (snap : Snapshot) (slot : ChartSlot)
    (ctx : Bool) (preds : List Prediction) (hist : List HistoryPoint)
    (h : ChartInst) (hsome : slot.handle = some h) :
    loadPredictions snap ctx (.ok ⟨some []⟩) = snap ∧
    loadPredictions snap ctx (.ok ⟨none⟩) = snap ∧
    loadHistory snap ctx (.ok ⟨none⟩) = snap ∧
    renderForecastChart slot false preds = slot ∧
    renderHistoryChart slot false hist = slot ∧
    renderHistoryChart slot true [] =
      ⟨some ⟨slot.nextId, [], []⟩, slot.liveIds.erase h.id ++ [slot.nextId],
        slot.nextId + 1⟩ := by
  refine ⟨rfl, rfl, rfl, by simp [renderForecastChart], by simp [renderHistoryChart], ?_⟩
  simp [renderHistoryChart, filterIdx, destroyIfLive, hsome, destroyChart, newChart]

/-- Witness for the amended C6 on a slot holding the live instance 0. -/
theorem C6_empty_payload_guards_witness :
    loadPredictions emptySnapshot true (.ok ⟨some []⟩) = emptySnapshot ∧
    renderHistoryChart (⟨some ⟨0, ["t0"], [10]⟩, [0], 1⟩ : ChartSlot) true [] =
      ⟨some ⟨1, [], []⟩, ([0].erase 0) ++ [1], 2⟩ :=
  ⟨(C6_empty_payload_guards emptySnapshot ⟨some ⟨0, ["t0"], [10]⟩, [0], 1⟩ true [] []
      ⟨0, ["t0"], [10]⟩ rfl).1,
   (C6_empty_payload_guards emptySnapshot ⟨some ⟨0, ["t0"], [10]⟩, [0], 1⟩ true [] []
      ⟨0, ["t0"], [10]⟩ rfl).2.2.2.2.2⟩

/-! ## Dashboard sync theorems -/

/-- The eight snapshot fields written only by loadCurrentAndStatus,
bundled for frame reasoning. -/
def currentFields (s : Snapshot) :
    String × String × String × String × String × String × String × Option TrendDisplay :=
  (s.currentPM25, s.currentStatusText, s.currentStatusClass, s.healthAdvice,
   s.lastUpdate, s.dotColor, s.nextHourPM25, s.trendIndicator)

lemma loadPredictions_currentFields (snap : Snapshot) (ctx : Bool)
    (res : FetchResult PredictionsPayload) :
    currentFields (loadPredictions snap ctx res) = currentFields snap := by
  unfold loadPredictions
  cases res with
  | failure => rfl
  | ok d =>
    obtain ⟨preds?⟩ := d
    cases preds? with
    | none => rfl
    | some preds =>
      by_cases h : preds.length = 0 <;> simp [h, currentFields]

lemma loadPredictions_historySlot (snap : Snapshot) (ctx : Bool)
    (res : FetchResult PredictionsPayload) :
    (loadPredictions snap ctx res).historySlot = snap.historySlot := by
  unfold loadPredictions
  cases res with
  | failure => rfl
  | ok d =>
    obtain ⟨preds?⟩ := d
    cases preds? with
    | none => rfl
    | some preds =>
      by_cases h : preds.length = 0 <;> simp [h]

lemma loadHistory_currentFields (snap : Snapshot) (ctx : Bool)
    (res : FetchResult HistoryPayload) :
    currentFields (loadHistory snap ctx res) = currentFields snap := by
  unfold loadHistory
  cases res with
  | failure => rfl
  | ok d =>
    obtain ⟨hist?⟩ := d
    cases hist? with
    | none => rfl
    | some hist => simp [currentFields]

lemma loadHistory_avgPM25 (snap : Snapshot) (ctx : Bool)
    (res : FetchResult HistoryPayload) :
    (loadHistory snap ctx res).avgPM25 = snap.avgPM25 := by
  unfold loadHistory
  cases res with
  | failure => rfl
  | ok d =>
    obtain ⟨hist?⟩ := d
    cases hist? with
    | none => rfl
    | some hist => rfl

lemma loadHistory_forecastSlot (snap : Snapshot) (ctx : Bool)
    (res : FetchResult HistoryPayload) :
    (loadHistory snap ctx res).forecastSlot = snap.forecastSlot := by
  unfold loadHistory
  cases res with
  | failure => rfl
  | ok d =>
    obtain ⟨hist?⟩ := d
    cases hist? with
    | none => rfl
    | some hist => rfl

lemma loadCurrentAndStatus_rest (snap : Snapshot) (res : FetchResult CurrentPayload) :
    (loadCurrentAndStatus snap res).avgPM25 = snap.avgPM25 ∧
    (loadCurrentAndStatus snap res).forecastSlot = snap.forecastSlot ∧
    (loadCurrentAndStatus snap res).historySlot = snap.historySlot := by
  unfold loadCurrentAndStatus systemStartupState
  cases res with
  | failure => exact ⟨rfl, rfl, rfl⟩
  | ok d =>
    obtain ⟨err, cur, dt, next⟩ := d
    by_cases he : err = ""
    · simp only [he, ne_eq, not_true_eq_false, if_false, ite_false]
      cases cur with
      | none => exact ⟨rfl, rfl, rfl⟩
      | some pm =>
        cases next with
        | none => exact ⟨rfl, rfl, rfl⟩
        | some nv => exact ⟨rfl, rfl, rfl⟩
    · simp [he]

lemma loadCurrentAndStatus_startup (snap : Snapshot) (data : CurrentPayload)
    (h : data.error ≠ "" ∨ data.current_pm25 = none) :
    loadCurrentAndStatus snap (.ok data) = systemStartupState snap := by
  unfold loadCurrentAndStatus
  rcases h with h | h
  · simp [h]
  · by_cases he : data.error = ""
    · simp [he, h]
    · simp [he]

lemma loadHistory_historySlot_congr (s s' : Snapshot) (ctx : Bool)
    (res : FetchResult HistoryPayload) (hh : s.historySlot = s'.historySlot) :
    (loadHistory s ctx res).historySlot = (loadHistory s' ctx res).historySlot := by
  unfold loadHistory
  cases res with
  | failure => exact hh
  | ok d =>
    obtain ⟨hist?⟩ := d
    cases hist? with
    | none => exact hh
    | some hist => simp [hh]

lemma loadPredictions_avg_forecast_congr (s s' : Snapshot) (ctx : Bool)
    (res : FetchResult PredictionsPayload) (ha : s.avgPM25 = s'.avgPM25)
    (hf : s.forecastSlot = s'.forecastSlot) :
    (loadPredictions s ctx res).avgPM25 = (loadPredictions s' ctx res).avgPM25 ∧
    (loadPredictions s ctx res).forecastSlot = (loadPredictions s' ctx res).forecastSlot := by
  unfold loadPredictions
  cases res with
  | failure => exact ⟨ha, hf⟩
  | ok d =>
    obtain ⟨preds?⟩ := d
    cases preds? with
    | none => exact ⟨ha, hf⟩
    | some preds =>
      by_cases h : preds.length = 0 <;> simp [h, ha, hf]

/-- C4 amended: within one cycle each source is processed in isolation: a
failed or malformed response for one source leaves that source's own
snapshot fields at their previous values and does not alter what the
other loaders compute.  The current-reading exception is narrower than
claimed: only a successfully delivered payload that carries an error
field or lacks the reading switches the snapshot to the explicit
initializing presentation (placeholder text and the yellow waiting dot);
a transport-failed or non-ok current fetch silently retains the previous
values like every other source. -/
theorem C4_partial_failure_isolation (snap : Snapshot) (c1 c2 : Bool)
    (rc : FetchResult CurrentPayload) (rp : FetchResult PredictionsPayload)
    (rh : FetchResult HistoryPayload) (data : CurrentPayload)
    (habs : data.error ≠ "" ∨ data.current_pm25 = none) :
    currentFields (loadDashboardData snap c1 c2 .failure rp rh) = currentFields snap ∧
    (loadDashboardData snap c1 c2 rc .failure rh).avgPM25 = snap.avgPM25 ∧
    (loadDashboardData snap c1 c2 rc .failure rh).forecastSlot = snap.forecastSlot ∧
    (loadDashboardData snap c1 c2 rc rp .failure).historySlot = snap.historySlot ∧
    currentFields (loadDashboardData snap c1 c2 rc rp rh)
      = currentFields (loadCurrentAndStatus snap rc) ∧
    currentFields (loadDashboardData snap c1 c2 (.ok data) rp rh)
      = currentFields (systemStartupState snap) ∧
    (systemStartupState snap).currentPM25 = "--" ∧
    (systemStartupState snap).currentStatusText = "System Starting..." ∧
    (systemStartupState snap).currentStatusClass = "status-pill loading" ∧
    (systemStartupState snap).lastUpdate = "Initializing..." ∧
    (systemStartupState snap).dotColor = "#fbbf24" := by
  have hgen : ∀ r : FetchResult CurrentPayload,
      currentFields (loadDashboardData snap c1 c2 r rp rh)
        = currentFields (loadCurrentAndStatus snap r) := by
    intro r
    unfold loadDashboardData
    rw [loadHistory_currentFields, loadPredictions_currentFields]
  refine ⟨?_, ?_, ?_, ?_, hgen rc, ?_, rfl, rfl, rfl, rfl, rfl⟩
  · rw [hgen .failure]
    rfl
  · unfold loadDashboardData
    rw [loadHistory_avgPM25]
    have h := loadPredictions_avg_forecast_congr (loadCurrentAndStatus snap rc) snap c1
      FetchResult.failure (loadCurrentAndStatus_rest snap rc).1
      (loadCurrentAndStatus_rest snap rc).2.1
    exact h.1
  · unfold loadDashboardData
    rw [loadHistory_forecastSlot]
    have h := loadPredictions_avg_forecast_congr (loadCurrentAndStatus snap rc) snap c1
      FetchResult.failure (loadCurrentAndStatus_rest snap rc).1
      (loadCurrentAndStatus_rest snap rc).2.1
    exact h.2
  · unfold loadDashboardData
    have h1 : (loadPredictions (loadCurrentAndStatus snap rc) c1 rp).historySlot
        = snap.historySlot := by
      rw [loadPredictions_historySlot]
      exact (loadCurrentAndStatus_rest snap rc).2.2
    exact (loadHistory_historySlot_congr _ snap c2 FetchResult.failure h1).trans rfl
  · rw [hgen (.ok data), loadCurrentAndStatus_startup snap data habs]

/-- Witness for the amended C4: on the concrete empty page state, a
transport failure of every source (in particular the current reading)
leaves the snapshot unchanged, while an ok current payload carrying an
error flag switches it to the initializing presentation. -/
theorem C4_partial_failure_isolation_witness :
    currentFields (loadDashboardData emptySnapshot true true .failure .failure .failure)
      = currentFields emptySnapshot ∧
    currentFields
        (loadDashboardData emptySnapshot true true (.ok ⟨"db empty", none, "", none⟩)
          .failure .failure)
      = currentFields (systemStartupState emptySnapshot) ∧
    (systemStartupState emptySnapshot).lastUpdate = "Initializing..." :=
  ⟨(C4_partial_failure_isolation emptySnapshot true true .failure .failure .failure
      ⟨"db empty", none, "", none⟩ (Or.inl (by decide))).1,
   (C4_partial_failure_isolation emptySnapshot true true .failure .failure .failure
      ⟨"db empty", none, "", none⟩ (Or.inl (by decide))).2.2.2.2.2.1,
   (C4_partial_failure_isolation emptySnapshot true true .failure .failure .failure
      ⟨"db empty", none, "", none⟩ (Or.inl (by decide))).2.2.2.2.2.2.2.2.2.1⟩

/-- C4 counterexample: the claim also covers a FAILED current-reading
fetch, but a transport failure of the current source leaves the whole
snapshot untouched (first cycle included), so the page does not show the
initializing placeholders in that scenario. -/
theorem C4_failed_current_fetch_retains :
    loadDashboardData emptySnapshot true true .failure .failure .failure = emptySnapshot ∧
    emptySnapshot.currentStatusText ≠ "System Starting..." ∧
    emptySnapshot.lastUpdate ≠ "Initializing..." ∧
    emptySnapshot.currentPM25 ≠ "--" := by
  refine ⟨rfl, ?_, ?_, ?_⟩ <;> decide

lemma foldl_add_predicted (l : List Prediction) (a : ℚ) :
    l.foldl (fun sum p => sum + p.predicted_pm25) a
      = a + (l.map (fun p => p.predicted_pm25)).sum := by
  induction l generalizing a with
  | nil => simp
  | cons p t ih => simp [ih, add_assoc]

/-- C7: the 24h average written by loadPredictions is the arithmetic mean
of predicted_pm25; a missing or empty predictions sequence causes an
early return with no update and no division; on the two-element sequence
with values 10 and 20 the mean is exactly 15, displayed as toFixed1 15. -/
theorem C7_average_is_mean (snap : Snapshot) (ctx : Bool)
    (preds : List Prediction) (hne : preds ≠ []) :
    loadPredictions snap ctx (.ok ⟨some []⟩) = snap ∧
    loadPredictions snap ctx (.ok ⟨none⟩) = snap ∧
    (loadPredictions snap ctx (.ok ⟨some preds⟩)).avgPM25
      = toFixed1 ((preds.map (fun p => p.predicted_pm25)).sum / (preds.length : ℚ)) ∧
    (loadPredictions snap ctx (.ok ⟨some [⟨"h0", 10⟩, ⟨"h1", 20⟩]⟩)).avgPM25
      = toFixed1 15 ∧
    (([⟨"h0", 10⟩, ⟨"h1", 20⟩] : List Prediction).map
        (fun p => p.predicted_pm25)).sum
      / ((([⟨"h0", 10⟩, ⟨"h1", 20⟩] : List Prediction).length : ℚ)) = 15 := by
  have hmean : ∀ l : List Prediction, l ≠ [] →
      (loadPredictions snap ctx (.ok ⟨some l⟩)).avgPM25
        = toFixed1 ((l.map (fun p => p.predicted_pm25)).sum / (l.length : ℚ)) := by
    intro l hl
    have hl0 : ¬l.length = 0 := by simpa using hl
    simp [loadPredictions, hl0, foldl_add_predicted]
  have hconc : (([⟨"h0", 10⟩, ⟨"h1", 20⟩] : List Prediction).map
        (fun p => p.predicted_pm25)).sum
      / ((([⟨"h0", 10⟩, ⟨"h1", 20⟩] : List Prediction).length : ℚ)) = 15 := by
    norm_num
  refine ⟨rfl, rfl, hmean preds hne, ?_, hconc⟩
  rw [hmean [⟨"h0", 10⟩, ⟨"h1", 20⟩] (by simp), hconc]

/-- Witness for C7 on the two-element sequence from the claim. -/
theorem C7_average_is_mean_witness :
    loadPredictions emptySnapshot true (.ok ⟨some []⟩) = emptySnapshot ∧
    (loadPredictions emptySnapshot true (.ok ⟨some [⟨"h0", 10⟩, ⟨"h1", 20⟩]⟩)).avgPM25
      = toFixed1 15 ∧
    (([⟨"h0", 10⟩, ⟨"h1", 20⟩] : List Prediction).map
        (fun p => p.predicted_pm25)).sum
      / ((([⟨"h0", 10⟩, ⟨"h1", 20⟩] : List Prediction).length : ℚ)) = 15 :=
  ⟨(C7_average_is_mean emptySnapshot true [⟨"h0", 10⟩, ⟨"h1", 20⟩] (by simp)).1,
   (C7_average_is_mean emptySnapshot true [⟨"h0", 10⟩, ⟨"h1", 20⟩] (by simp)).2.2.2.1,
   (C7_average_is_mean emptySnapshot true [⟨"h0", 10⟩, ⟨"h1", 20⟩] (by simp)).2.2.2.2⟩

/-- C8: for present current and next-hour readings, the trend delta is
nextHour minus current, the indicator shows the up arrow exactly when
the delta is positive (otherwise the down arrow), and the direction maps
fixedly to presentation: up to the warning red, down to the favorable
green, with the absolute delta displayed. -/
theorem C8_trend_direction (snap : Snapshot) (data : CurrentPayload)
    (pm25 nextVal : ℚ) (herr : data.error = "")
    (hcur : data.current_pm25 = some pm25)
    (hnext : data.next_hour_prediction = some nextVal) :
    trendDelta pm25 nextVal = nextVal - pm25 ∧
    (loadCurrentAndStatus snap (.ok data)).trendIndicator = some
      ⟨if 0 < nextVal - pm25 then "↗" else "↘",
       if 0 < nextVal - pm25 then "#ef4444" else "#10b981",
       toFixed1 |nextVal - pm25|⟩ ∧
    (loadCurrentAndStatus snap (.ok data)).nextHourPM25 = toFixed1 nextVal := by
  refine ⟨rfl, ?_, ?_⟩ <;>
    simp [loadCurrentAndStatus, herr, hcur, hnext, trendDelta]

/-- Witness for C8 at the pairs named by the claim: trend(20, 25) shows
the up arrow in warning red with magnitude 5; trend(20, 15) shows the
down arrow in favorable green with magnitude 5 (delta -5). -/
theorem C8_trend_direction_witness :
    (loadCurrentAndStatus emptySnapshot (.ok ⟨"", some 20, "T", some 25⟩)).trendIndicator
      = some ⟨"↗", "#ef4444", toFixed1 5⟩ ∧
    (loadCurrentAndStatus emptySnapshot (.ok ⟨"", some 20, "T", some 15⟩)).trendIndicator
      = some ⟨"↘", "#10b981", toFixed1 5⟩ ∧
    trendDelta 20 25 = 5 ∧ trendDelta 20 15 = -5 := by
  have h1 := (C8_trend_direction emptySnapshot ⟨"", some 20, "T", some 25⟩ 20 25
    rfl rfl rfl).2.1
  have h2 := (C8_trend_direction emptySnapshot ⟨"", some 20, "T", some 15⟩ 20 15
    rfl rfl rfl).2.1
  norm_num at h1 h2
  refine ⟨h1, h2, ?_, ?_⟩ <;> norm_num [trendDelta]

end PM25
